import Mathlib

/-!
Verification of the request-handling pipeline and error-normalization
contract of the fastify-auto service wrapper.

The repository carries several revisions of the same `Service` class:

* `src/dist/service.js` (identical in substance to the TypeScript copy in
  `src/unnamed/part_001`): the revision with response-schema validation.
  Its `handleError` classifies thrown values in the order
  missing-required-field message / validation list / explicit statusCode /
  500-fallback, its `handleSerializationError` formats response-validation
  failures, and its `setErrorHandler` installs a global handler.
  Embedded below under namespace `Dist`.
* `src/src/service.ts`: the revision whose `handleError` classifies by
  explicit statusCode / unique-violation code 23505 / 500-fallback.
  Embedded below under namespace `Ts`.
* `src/unnamed/part_000` (first document): the revision whose
  `registerRoutes` adds default 400/500 response schemas and replies through
  `Responder` (`src/unnamed/part_002`) and `Validator` (`src/src/validator.ts`).

JavaScript values are modelled by `JsV`; JS truthiness by `JsV.truthy`.
Thrown values are modelled by `ErrVal`, a record of the properties the
classifiers read (`message`, `validation`, `statusCode`, `code`, `name`,
`details`, `stack`); absent properties are `none` / `JsV.undefined`.
-/

/-- A JavaScript value, as far as the pipeline inspects one. -/
inductive JsV where
  | undefined : JsV
  | null : JsV
  | bool : Bool → JsV
  | num : Int → JsV
  | str : String → JsV
  | arr : List JsV → JsV
  | obj : List (String × JsV) → JsV

namespace JsV

/-- JS truthiness: undefined, null, false, 0 and the empty string are falsy;
every array and object (even empty) is truthy. -/
def truthy : JsV → Bool
  | .undefined => false
  | .null => false
  | .bool b => b
  | .num n => n != 0
  | .str s => s != ""
  | .arr _ => true
  | .obj _ => true

/-- Whether the value is the JS `undefined` sentinel. -/
def isUndefined : JsV → Bool
  | .undefined => true
  | _ => false

/-- First-match lookup in an association list of object fields. -/
def lookupField : List (String × JsV) → String → JsV
  | [], _ => .undefined
  | (k, v) :: rest, key => if k = key then v else lookupField rest key

/-- Property read `o[key]`: `undefined` on a missing key or a non-object. -/
def getField : JsV → String → JsV
  | .obj fs, key => lookupField fs key
  | _, _ => .undefined

/-- Property assignment on a field list: overwrites the first occurrence in
place, appends when absent (JS insertion-order semantics). -/
def setFieldList : List (String × JsV) → String → JsV → List (String × JsV)
  | [], k, v => [(k, v)]
  | (k1, v1) :: rest, k, v =>
    if k1 = k then (k1, v) :: rest else (k1, v1) :: setFieldList rest k v

/-- Property assignment `o[key] = v` on an object; a no-op on a non-object
(the classifiers only ever assign onto objects). -/
def setField : JsV → String → JsV → JsV
  | .obj fs, k, v => .obj (setFieldList fs k v)
  | o, _, _ => o

end JsV

/-- The JS value of an optional string property. -/
def optJs : Option String → JsV
  | some s => .str s
  | none => .undefined

/-- JS `o || d` for an optional string `o`: the default replaces an absent or
empty (falsy) string. -/
def jsOrStr : Option String → String → String
  | some s, d => if s = "" then d else s
  | none, d => d

/-- The characters of the literal searched by `message.includes('is required!')`. -/
def reqToken : List Char := "is required!".data

/-- The characters of `" is required!"`, the part of the field-name regex after
the capture group's closing quote. -/
def reqTail : List Char := " is required!".data

/-- JS `String.prototype.includes`: leftmost scan for the pattern. -/
def hasSub (pat : List Char) : List Char → Bool
  | [] => pat.isEmpty
  | c :: rest => pat.isPrefixOf (c :: rest) || hasSub pat rest

/-- One attempt of the regex match at a position whose character is a quote:
the capture group is the maximal run of non-quote characters, which must be
nonempty and be followed by a closing quote and the literal tail. -/
def matchHere (rest : List Char) : Option (List Char) :=
  if rest.takeWhile (fun c => c ≠ '"') ≠ [] ∧
     rest.dropWhile (fun c => c ≠ '"') ≠ [] ∧
     reqTail.isPrefixOf ((rest.dropWhile (fun c => c ≠ '"')).drop 1) = true then
    some (rest.takeWhile (fun c => c ≠ '"'))
  else none

/-- JS `message.match(/"([^\x22]+)" is required!/)`, returning capture group 1
of the leftmost match. -/
def matchRequired : List Char → Option (List Char)
  | [] => none
  | c :: rest =>
    if c = '"' then
      match matchHere rest with
      | some content => some content
      | none => matchRequired rest
    else matchRequired rest

/-- One entry of an ajv-style validation failure list, as far as the
classifiers read it. -/
structure VErrItem where
  instancePath : Option String := none
  message : Option String := none

/-- A thrown/rejected JS value, restricted to the properties the pipeline
reads. An absent property is `none` (or `JsV.undefined` for `details`). -/
structure ErrVal where
  message : Option String := none
  validation : Option (List VErrItem) := none
  statusCode : Option Int := none
  code : Option String := none
  name : Option String := none
  details : JsV := .undefined
  stack : Option String := none

/-- Guard of the missing-required-field branches:
`error.message && error.message.includes('is required!')`. -/
def msgHasRequired (e : ErrVal) : Bool :=
  match e.message with
  | some m => (m != "") && hasSub reqToken m.data
  | none => false

/-- Truthiness of `error.statusCode` (a number: truthy iff nonzero). -/
def statusCodeTruthy (e : ErrVal) : Bool :=
  match e.statusCode with
  | some n => n != 0
  | none => false

/-- Truthiness of `error.stack`. -/
def stackTruthy (e : ErrVal) : Bool :=
  match e.stack with
  | some s => s != ""
  | none => false

/-- The field name extracted by `error.message.match(/"([^\x22]+)" is required!/)`,
with the fallback literal `field` when the regex does not match. -/
def fieldNameOf (e : ErrVal) : String :=
  match e.message with
  | some m =>
    match matchRequired m.data with
    | some content => String.mk content
    | none => "field"
  | none => "field"

/-- JS `String.prototype.replace('/', '')`: removes the first slash only. -/
def removeFirstSlash : List Char → List Char
  | [] => []
  | c :: rest => if c = '/' then rest else c :: removeFirstSlash rest

/-- `firstError.instancePath?.replace('/', '') || 'field'`. -/
def errField (i : VErrItem) : String :=
  match i.instancePath with
  | some p =>
    let s := String.mk (removeFirstSlash p.data)
    if s = "" then "field" else s
  | none => "field"

/-- `firstError.message` interpolated into a template literal (`undefined`
when the property is absent, as JS renders it). -/
def errMsg (i : VErrItem) : String :=
  match i.message with
  | some s => s
  | none => "undefined"

/-- The `details.errors` payload: the failure list passed through verbatim. -/
def errsJs (l : List VErrItem) : JsV :=
  .arr (l.map (fun i =>
    .obj [("instancePath", optJs i.instancePath), ("message", optJs i.message)]))

/-- One reply: the HTTP status and the value passed to `send` (`none` when
`send()` is called with no payload). -/
structure Reply where
  status : Int
  body : Option JsV

/-- `getStatusCode` of `src/src/service.ts` lines 239-243 (identical in
`src/dist/service.js` lines 225-231): POST with a defined result gives 201,
DELETE gives 204, everything else 200. -/
def getStatusCode (method : String) (result : JsV) : Int :=
  if method == "POST" && !result.isUndefined then 201
  else if method == "DELETE" then 204
  else 200

namespace Responder

/-- `Responder.success` of `src/unnamed/part_002` lines 10-22: wraps the data
in the success envelope, except that a 204 reply is sent with no body. -/
def success (data : JsV) (statusCode : Int) : Reply :=
  if statusCode = 204 then ⟨204, none⟩
  else ⟨statusCode, some (.obj [("success", .bool true), ("data", data)])⟩

end Responder

/-- The raw sections of an inbound request (or the declared sections of a
route schema): each of body, params, query, headers as a JS value, with
`JsV.undefined` for an absent one. -/
structure Sections where
  body : JsV := .undefined
  params : JsV := .undefined
  query : JsV := .undefined
  headers : JsV := .undefined

/-- `schema?.body` and friends: reading a section of a possibly-absent schema. -/
def secOf (schema : Option Sections) (f : Sections → JsV) : JsV :=
  match schema with
  | some s => f s
  | none => .undefined

namespace Validator

/-- `Validator.validateRequest` of `src/src/validator.ts` lines 3-25: a pure
projection that includes a section key exactly when the schema declares the
section and the raw value is truthy, copying the raw value unchanged. -/
def validateRequest (schema : Option Sections) (req : Sections) : JsV :=
  .obj
    ((if (secOf schema Sections.body).truthy && req.body.truthy then
        [("body", req.body)] else []) ++
     (if (secOf schema Sections.params).truthy && req.params.truthy then
        [("params", req.params)] else []) ++
     (if (secOf schema Sections.query).truthy && req.query.truthy then
        [("query", req.query)] else []) ++
     (if (secOf schema Sections.headers).truthy && req.headers.truthy then
        [("headers", req.headers)] else []))

end Validator

/-- The default 400 response schema added by `src/unnamed/part_000` lines
166-175. -/
def default400Schema : JsV :=
  .obj [("type", .str "object"),
        ("properties", .obj
          [("success", .obj [("type", .str "boolean")]),
           ("error", .obj [("type", .str "string")]),
           ("details", .obj [("type", .str "array"), ("nullable", .bool true)])])]

/-- The default 500 response schema added by `src/unnamed/part_000` lines
177-185: note that unlike the 400 default it has no `details` property. -/
def default500Schema : JsV :=
  .obj [("type", .str "object"),
        ("properties", .obj
          [("success", .obj [("type", .str "boolean")]),
           ("error", .obj [("type", .str "string")])])]

/-- `if (!routeSchema.response) routeSchema.response = {}`
(`src/unnamed/part_000` lines 162-164). -/
def normRespBase (response : JsV) : JsV :=
  if response.truthy then response else .obj []

/-- The Schema Normalizer: `src/unnamed/part_000` lines 161-185. Ensures a
`response` object exists and fills in the 400 and 500 shapes when the caller
supplied none (JS truthiness decides presence). -/
def normalizeResponseSchemas (response : JsV) : JsV :=
  let r0 := normRespBase response
  let r1 := if (r0.getField "400").truthy then r0
            else r0.setField "400" default400Schema
  if (r1.getField "500").truthy then r1
  else r1.setField "500" default500Schema

namespace Dist

/-- Body of `handleError` branch 1 (`src/dist/service.js` lines 235-247):
missing-required-field message. -/
def errMissingBody (f : String) : JsV :=
  .obj [("error", .str "Validation Error"),
        ("reason", .str ("Field \"" ++ f ++ "\" is required")),
        ("details", .obj [("type", .str "missing_field"), ("field", .str f)])]

/-- Body of `handleError` branch 2 and of the global handler's validation
branch (`src/dist/service.js` lines 248-260 and 282-293); the two differ only
in the `details.type` tag they pass. -/
def valBody (tag : String) (l : List VErrItem) (i : VErrItem) : JsV :=
  .obj [("error", .str "Validation Error"),
        ("reason", .str (errField i ++ ": " ++ errMsg i)),
        ("details", .obj [("type", .str tag), ("errors", errsJs l)])]

/-- Body of `handleError` branch 3 (`src/dist/service.js` lines 261-268):
explicit statusCode; `details` is spread in only when truthy. -/
def statusBody (e : ErrVal) : JsV :=
  .obj ([("error", .str (jsOrStr e.name "Error")), ("reason", optJs e.message)] ++
        (if e.details.truthy then [("details", e.details)] else []))

/-- Body of `handleError` branch 4 (`src/dist/service.js` lines 269-274):
the 500 fallback. -/
def fallbackBody (e : ErrVal) : JsV :=
  .obj [("error", .str "Internal Server Error"),
        ("reason", .str (jsOrStr e.message "Something went wrong"))]

/-- `if (process.env.NODE_ENV === 'development' && error.stack)
errorResponse.stack = error.stack` (`src/dist/service.js` lines 275-277). -/
def withStack (dev : Bool) (e : ErrVal) (b : JsV) : JsV :=
  if dev && stackTruthy e then b.setField "stack" (.str (e.stack.getD "")) else b

/-- `Service.handleError` of `src/dist/service.js` lines 232-279. Returns
`none` for the one input on which the JS code itself throws: a truthy
`validation` that is an empty array, where `error.validation[0]` is
`undefined` and reading `.instancePath` on it raises a TypeError. -/
def handleError (e : ErrVal) (dev : Bool) : Option Reply :=
  if msgHasRequired e then
    some ⟨422, some (withStack dev e (errMissingBody (fieldNameOf e)))⟩
  else
    match e.validation with
    | some [] => none
    | some (i :: rest) =>
      some ⟨400, some (withStack dev e (valBody "validation" (i :: rest) i))⟩
    | none =>
      if statusCodeTruthy e then
        some ⟨e.statusCode.getD 0, some (withStack dev e (statusBody e))⟩
      else
        some ⟨500, some (withStack dev e (fallbackBody e))⟩

/-- Body of `handleSerializationError` branch 1 (`src/dist/service.js` lines
192-204). -/
def serMissingBody (e : ErrVal) (f : String) : JsV :=
  .obj [("error", .str "Response Validation Error"),
        ("reason", .str ("Field \"" ++ f ++ "\" is required in response")),
        ("details", .obj [("type", .str "missing_field"), ("field", .str f),
                          ("message", optJs e.message)])]

/-- Body of `handleSerializationError` branch 2 (`src/dist/service.js` lines
205-216). -/
def serValBody (l : List VErrItem) (i : VErrItem) : JsV :=
  .obj [("error", .str "Response Validation Error"),
        ("reason", .str (errField i ++ ": " ++ errMsg i)),
        ("details", .obj [("type", .str "response_validation"),
                          ("errors", errsJs l)])]

/-- Body of `handleSerializationError` branch 3 (`src/dist/service.js` lines
217-222): no `details` field at all. -/
def serFallbackBody (e : ErrVal) : JsV :=
  .obj [("error", .str "Serialization Error"),
        ("reason", .str (jsOrStr e.message "Failed to serialize response"))]

/-- `Service.handleSerializationError` of `src/dist/service.js` lines
190-224: always replies 422; attaches no stack in any branch. Returns `none`
exactly where the JS code throws (truthy empty `validation` array, as in
`handleError`). -/
def handleSerializationError (e : ErrVal) : Option Reply :=
  if msgHasRequired e then
    some ⟨422, some (serMissingBody e (fieldNameOf e))⟩
  else
    match e.validation with
    | some [] => none
    | some (i :: rest) => some ⟨422, some (serValBody (i :: rest) i)⟩
    | none => some ⟨422, some (serFallbackBody e)⟩

/-- The handler installed by `Service.setErrorHandler` (`src/dist/service.js`
lines 280-297): upstream validation failures get a 400 body tagged
`request_validation` (with no stack, in any mode); everything else is passed
to `handleError`. -/
def globalErrorHandler (e : ErrVal) (dev : Bool) : Option Reply :=
  match e.validation with
  | some [] => none
  | some (i :: rest) =>
    some ⟨400, some (valBody "request_validation" (i :: rest) i)⟩
  | none => handleError e dev

/-- What the route handler saw from the application handler: a returned
result (`JsV.undefined` models `undefined`) or a thrown value. -/
inductive Outcome where
  | ok : JsV → Outcome
  | err : ErrVal → Outcome

/-- The `Error('Validator compiler not initialized')` thrown at
`src/dist/service.js` line 156 (its stack is never read downstream, so it is
left unmodelled). -/
def compilerNotInitError : ErrVal :=
  { message := some "Validator compiler not initialized", name := some "Error" }

/-- The `Error('Response validation failed')` built at `src/dist/service.js`
lines 170-172, carrying `validator.errors` (its stack is never read
downstream). -/
def responseValidationError (errs : List VErrItem) : ErrVal :=
  { message := some "Response validation failed", validation := some errs,
    name := some "Error" }

/-- The per-route handler registered by `Service.registerRoutes`
(`src/dist/service.js` lines 140-186). `respSchema` models
`route.schema?.response?.[statusCode]` (`JsV.undefined` when undeclared),
`validatorInit` the truthiness of `this.app.validatorCompiler`, `validate`
the compiled ajv validator and `valErrors` its `errors` list after a failure.
The result is the list of replies sent (`none` models the inputs on which a
classifier itself throws, see `handleError`; the JS process would then recover
once more through the outer catch or the framework with a runtime TypeError,
which is outside this model). -/
def routeHandler (method : String) (respSchema : Int → JsV)
    (validatorInit : Bool) (validate : JsV → JsV → Bool)
    (valErrors : JsV → JsV → List VErrItem) (dev : Bool) :
    Outcome → Option (List Reply)
  | .err e => (handleError e dev).map (fun r => [r])
  | .ok result =>
    let st := getStatusCode method result
    let rs := respSchema st
    if rs.truthy then
      if !validatorInit then
        (handleSerializationError compilerNotInitError).map (fun r => [r])
      else if validate rs result then
        some [⟨st, some result⟩]
      else
        (handleSerializationError
          (responseValidationError (valErrors rs result))).map (fun r => [r])
    else
      some [⟨st, some result⟩]

end Dist

namespace Ts

/-- The `statusCode`, `message` and `details` locals of
`Service.handleError` in `src/src/service.ts` lines 252-264: explicit
statusCode echoed verbatim, PostgreSQL unique-violation code 23505 mapped to
409, otherwise the 500 fallback. -/
def errorParts (e : ErrVal) : Int × String × JsV :=
  if statusCodeTruthy e then
    (e.statusCode.getD 0, jsOrStr e.message "Internal server error", e.details)
  else if e.code = some "23505" then (409, "Resource already exists", .undefined)
  else (500, "Internal server error", .undefined)

/-- `Service.handleError` of `src/src/service.ts` lines 245-279: the reply
built from `errorParts`, with `details` attached only when truthy and the
stack only in development mode. This revision never throws. -/
def handleError (e : ErrVal) (dev : Bool) : Reply :=
  ⟨(errorParts e).1, some (.obj
    ([("error", .str (errorParts e).2.1)] ++
     (if (errorParts e).2.2.truthy then [("details", (errorParts e).2.2)] else []) ++
     (if dev && stackTruthy e then [("stack", .str (e.stack.getD ""))] else [])))⟩

end Ts

/-- A sample ajv failure item, used to instantiate validation-list claims. -/
def sampleVItem : VErrItem :=
  { instancePath := some "/name", message := some "must be string" }

/-- A sample upstream validation error carrying one failure item. -/
def sampleValErr : ErrVal :=
  { message := some "x", validation := some [sampleVItem] }

/-- A sample plain thrown error that carries a stack trace. -/
def sampleStackErr : ErrVal :=
  { message := some "boom", stack := some "trace at line 1" }

/-- Reads `details.type` out of an optional reply (for stating claims about
the classified bodies). -/
def detailsTypeOf (o : Option Reply) : JsV :=
  match o with
  | some r =>
    match r.body with
    | some b => (b.getField "details").getField "type"
    | none => .undefined
  | none => .undefined

/-- Reads a top-level body field out of an optional reply. -/
def bodyFieldOf (o : Option Reply) (k : String) : JsV :=
  match o with
  | some r =>
    match r.body with
    | some b => b.getField k
    | none => .undefined
  | none => .undefined

/-- Reads the status out of an optional reply. -/
def statusOf (o : Option Reply) : Option Int := o.map Reply.status

/-! Helper lemmas about the JS-value and string machinery. -/

lemma lookup_setFieldList_same (fs : List (String × JsV)) (k : String) (v : JsV) :
    JsV.lookupField (JsV.setFieldList fs k v) k = v := by
  induction fs with
  | nil => simp [JsV.setFieldList, JsV.lookupField]
  | cons a rest ih =>
    obtain ⟨k1, v1⟩ := a
    by_cases h : k1 = k <;> simp [JsV.setFieldList, JsV.lookupField, h, ih]

lemma lookup_setFieldList_ne (fs : List (String × JsV)) (k v k2)
    (h : k2 ≠ k) :
    JsV.lookupField (JsV.setFieldList fs k v) k2 = JsV.lookupField fs k2 := by
  induction fs with
  | nil => simp [JsV.setFieldList, JsV.lookupField, Ne.symm h]
  | cons a rest ih =>
    obtain ⟨k1, v1⟩ := a
    by_cases h1 : k1 = k
    · subst h1
      simp [JsV.setFieldList, JsV.lookupField, Ne.symm h]
    · by_cases h2 : k1 = k2
      · subst h2
        simp [JsV.setFieldList, JsV.lookupField, h1]
      · simp [JsV.setFieldList, JsV.lookupField, h1, h2, ih]

lemma truthy_ne_undef (v : JsV) (h : v.truthy = true) : v ≠ .undefined := by
  cases v <;> simp_all [JsV.truthy]

lemma hasSub_cons (pat : List Char) (c : Char) (l : List Char)
    (h : hasSub pat l = true) : hasSub pat (c :: l) = true := by
  simp [hasSub, h]

lemma hasSub_append (pat pre l : List Char) (h : hasSub pat l = true) :
    hasSub pat (pre ++ l) = true := by
  induction pre with
  | nil => simpa using h
  | cons a as ih => simpa using hasSub_cons pat a (as ++ l) ih

lemma hasSub_here (pat t : List Char) (hp : pat ≠ []) :
    hasSub pat (pat ++ t) = true := by
  cases pat with
  | nil => exact absurd rfl hp
  | cons a as =>
    have h1 : (a :: as).isPrefixOf (a :: (as ++ t)) = true :=
      List.isPrefixOf_iff_prefix.mpr ⟨t, rfl⟩
    simp [hasSub, h1]

lemma matchHere_hasSub (rest content : List Char)
    (h : matchHere rest = some content) : hasSub reqToken rest = true := by
  unfold matchHere at h
  split at h
  case isFalse => exact absurd h (by simp)
  case isTrue hcond =>
    obtain ⟨hc, ha, hp⟩ := hcond
    have hsplit := List.takeWhile_append_dropWhile (fun c => decide (c ≠ '"')) rest
    cases hdw : rest.dropWhile (fun c => decide (c ≠ '"')) with
    | nil => rw [hdw] at ha; exact absurd rfl ha
    | cons a0 after =>
      rw [hdw] at hp
      obtain ⟨t2, ht2⟩ := List.isPrefixOf_iff_prefix.mp hp
      simp at ht2
      have h1 : hasSub reqToken after = true := by
        rw [← ht2, show reqTail = ' ' :: reqToken from by decide]
        exact hasSub_cons _ _ _ (hasSub_here reqToken t2 (by decide))
      rw [← hsplit, hdw]
      exact hasSub_append _ _ _ (hasSub_cons _ _ _ h1)

lemma matchRequired_hasSub : ∀ (l content : List Char),
    matchRequired l = some content → hasSub reqToken l = true := by
  intro l
  induction l with
  | nil => intro c h; simp [matchRequired] at h
  | cons a rest ih =>
    intro c h
    by_cases ha : a = '"'
    · rw [matchRequired, if_pos ha] at h
      cases hm : matchHere rest with
      | some c2 => exact hasSub_cons _ _ _ (matchHere_hasSub rest c2 hm)
      | none => rw [hm] at h; exact hasSub_cons _ _ _ (ih c h)
    · rw [matchRequired, if_neg ha] at h
      exact hasSub_cons _ _ _ (ih c h)

lemma matchRequired_ne_nil (l content : List Char)
    (h : matchRequired l = some content) : l ≠ [] := by
  intro he
  subst he
  simp [matchRequired] at h

lemma msgHasRequired_of_match (e : ErrVal) (m : String) (f : List Char)
    (hm : e.message = some m) (hf : matchRequired m.data = some f) :
    msgHasRequired e = true := by
  have h1 : hasSub reqToken m.data = true := matchRequired_hasSub _ _ hf
  have h2 : m ≠ "" := by
    intro he
    exact matchRequired_ne_nil m.data f hf (by rw [he])
  simp only [msgHasRequired, hm]
  rw [h1]
  simp [bne_iff_ne, h2]

lemma fieldNameOf_of_match (e : ErrVal) (m : String) (f : List Char)
    (hm : e.message = some m) (hf : matchRequired m.data = some f) :
    fieldNameOf e = String.mk f := by
  simp [fieldNameOf, hm, hf]

lemma getField_withStack (dev : Bool) (e : ErrVal) (fs : List (String × JsV))
    (hb : (JsV.obj fs).getField "stack" = .undefined) :
    (Dist.withStack dev e (.obj fs)).getField "stack" =
      (if dev && stackTruthy e then .str (e.stack.getD "") else .undefined) := by
  unfold Dist.withStack
  cases h : dev && stackTruthy e
  · simpa [h] using hb
  · simp [h, JsV.setField, JsV.getField, lookup_setFieldList_same]

lemma getField_withStack_ne (dev : Bool) (e : ErrVal)
    (fs : List (String × JsV)) (k : String) (hk : k ≠ "stack") :
    (Dist.withStack dev e (.obj fs)).getField k = (JsV.obj fs).getField k := by
  unfold Dist.withStack
  cases h : dev && stackTruthy e
  · simp [h]
  · simp [h, JsV.setField, JsV.getField, lookup_setFieldList_ne _ _ _ _ hk]

lemma handleError_ne_none (e : ErrVal) (dev : Bool)
    (h : e.validation ≠ some []) : Dist.handleError e dev ≠ none := by
  unfold Dist.handleError
  by_cases hm : msgHasRequired e = true
  · simp [hm]
  · cases hv : e.validation with
    | none => by_cases hsc : statusCodeTruthy e = true <;> simp [hm, hv, hsc]
    | some l =>
      cases l with
      | nil => exact absurd hv h
      | cons i rest => simp [hm, hv]

lemma handleSerialization_ne_none (e : ErrVal)
    (h : e.validation ≠ some []) : Dist.handleSerializationError e ≠ none := by
  unfold Dist.handleSerializationError
  by_cases hm : msgHasRequired e = true
  · simp [hm]
  · cases hv : e.validation with
    | none => simp [hm, hv]
    | some l =>
      cases l with
      | nil => exact absurd hv h
      | cons i rest => simp [hm, hv]

lemma stack_withStack_iff (dev : Bool) (e : ErrVal) (fs : List (String × JsV))
    (hb : (JsV.obj fs).getField "stack" = .undefined) :
    ((Dist.withStack dev e (.obj fs)).getField "stack" ≠ .undefined ↔
      (dev && stackTruthy e) = true) := by
  rw [getField_withStack dev e fs hb]
  cases h : dev && stackTruthy e <;> simp [h]

lemma stack_withStack_iff' (dev : Bool) (e : ErrVal) (b : JsV)
    (hobj : ∃ fs, b = JsV.obj fs) (hb : b.getField "stack" = .undefined) :
    ((Dist.withStack dev e b).getField "stack" ≠ .undefined ↔
      (dev && stackTruthy e) = true) := by
  obtain ⟨fs, rfl⟩ := hobj
  exact stack_withStack_iff dev e fs hb

/-! The claims. -/

/-- C2: the method-to-status mapping is total and fixed. POST with a defined
(non-undefined) result gives 201; DELETE gives 204 and the reply is sent with
no body (`Responder.success`); every other method, and POST with an undefined
result, gives 200. -/
theorem claim_C2 (method : String) (result : JsV) :
    (method = "POST" → result.isUndefined = false →
      getStatusCode method result = 201) ∧
    (method = "DELETE" →
      getStatusCode method result = 204 ∧
      (Responder.success result (getStatusCode method result)).body = none) ∧
    (method ≠ "DELETE" → (method = "POST" → result.isUndefined = true) →
      getStatusCode method result = 200) := by
  refine ⟨?_, ?_, ?_⟩
  · intro h1 h2
    subst h1
    simp [getStatusCode, h2]
  · intro h1
    subst h1
    simp [getStatusCode, Responder.success]
  · intro hne hpost
    by_cases hp : method = "POST"
    · subst hp
      simp [getStatusCode, hpost rfl]
    · simp [getStatusCode, beq_iff_eq, hp, hne]

/-- Witness for C2 at POST with a defined result, DELETE, and GET. -/
theorem claim_C2_witness :
    getStatusCode "POST" (.num 1) = 201 ∧
    (getStatusCode "DELETE" (.num 7) = 204 ∧
      (Responder.success (.num 7) (getStatusCode "DELETE" (.num 7))).body = none) ∧
    getStatusCode "GET" (.num 7) = 200 :=
  ⟨(claim_C2 "POST" (.num 1)).1 rfl rfl,
   (claim_C2 "DELETE" (.num 7)).2.1 rfl,
   (claim_C2 "GET" (.num 7)).2.2 (by decide) (fun h => absurd h (by decide))⟩

/-- C3 counterexample: a bare unique-violation error (only `code: '23505'`)
reaches the 500 fallback of the `src/dist/service.js` classifier, whose
`handleError` has no unique-violation case; the reply is 500 with error
`Internal Server Error`, not 409 with `Resource already exists` as the claim
states. -/
theorem claim_C3_cex :
    Dist.handleError { code := some "23505" } false =
      some ⟨500, some (.obj [("error", .str "Internal Server Error"),
                             ("reason", .str "Something went wrong")])⟩ ∧
    statusOf (Dist.handleError { code := some "23505" } false) ≠ some 409 := by
  exact ⟨rfl, by decide⟩

/-- C3 amended: for a thrown value with no truthy statusCode whose `code` is
the unique-violation marker 23505, the `src/src/service.ts` classifier
replies 409 with `Resource already exists`; the `src/dist/service.js`
classifier has no such case and (when the value also matches no other branch)
replies with its 500 fallback. -/
theorem claim_C3 (e : ErrVal) (dev : Bool)
    (hsc : statusCodeTruthy e = false) (hcode : e.code = some "23505") :
    (Ts.handleError e dev).status = 409 ∧
    bodyFieldOf (some (Ts.handleError e dev)) "error" =
      .str "Resource already exists" ∧
    (msgHasRequired e = false → e.validation = none →
      statusOf (Dist.handleError e dev) = some 500 ∧
      bodyFieldOf (Dist.handleError e dev) "error" =
        .str "Internal Server Error") := by
  have hp : Ts.errorParts e = (409, "Resource already exists", .undefined) := by
    simp [Ts.errorParts, hsc, hcode]
  refine ⟨?_, ?_, ?_⟩
  · simp [Ts.handleError, hp]
  · cases h2 : dev && stackTruthy e <;>
      simp [Ts.handleError, hp, bodyFieldOf, JsV.getField, JsV.lookupField, h2,
            JsV.truthy]
  · intro hm hv
    constructor
    · simp [Dist.handleError, hm, hv, hsc, statusOf]
    · have hb : (Dist.withStack dev e (Dist.fallbackBody e)).getField "error" =
          .str "Internal Server Error" := by
        rw [Dist.fallbackBody, getField_withStack_ne dev e _ "error" (by decide)]
        rfl
      simp [Dist.handleError, hm, hv, hsc, bodyFieldOf, hb]

/-- Witness for C3 (amended) at the bare 23505 error. -/
theorem claim_C3_witness :
    (Ts.handleError { code := some "23505" } false).status = 409 ∧
    statusOf (Dist.handleError { code := some "23505" } false) = some 500 := by
  have h := claim_C3 { code := some "23505" } false rfl rfl
  exact ⟨h.1, (h.2.2 rfl rfl).1⟩

/-- C5 counterexample: the claim also cites the `src/src/service.ts`
classifier, which has no missing-required-field branch at all: there
`new Error('"email" is required!')` (falsy statusCode, no code) is replied
500 with `Internal server error`, not 422 — and a truthy statusCode wins
over the pattern, so the claimed priority fails on that revision too. -/
theorem claim_C5_cex :
    (Ts.handleError { message := some "\"email\" is required!" } false).status
      = 500 ∧
    bodyFieldOf (some (Ts.handleError
      { message := some "\"email\" is required!" } false)) "error" =
      .str "Internal server error" ∧
    (Ts.handleError { message := some "\"email\" is required!" } false).status
      ≠ 422 ∧
    (Ts.handleError
      { message := some "\"email\" is required!", statusCode := some 409 }
      false).status = 409 := by
  refine ⟨rfl, rfl, by decide, rfl⟩

/-- C5 amended: any thrown value whose message matches the pattern
`"<field>" is required!` is classified 422 by the `src/dist/service.js`
classifier with the exact missing-field body, whatever validation list,
statusCode or code it also carries (that branch is evaluated first).
The `src/src/service.ts` classifier has no missing-field case: the same
value follows its own chain there — the echoed statusCode when truthy,
409 on code 23505, otherwise the 500 `Internal server error` fallback. -/
theorem claim_C5 (e : ErrVal) (dev : Bool) (m : String) (f : List Char)
    (hm : e.message = some m) (hf : matchRequired m.data = some f) :
    (Dist.handleError e dev =
      some ⟨422, some (Dist.withStack dev e
        (Dist.errMissingBody (String.mk f)))⟩ ∧
     (Dist.errMissingBody (String.mk f)).getField "details" =
       .obj [("type", .str "missing_field"), ("field", .str (String.mk f))]) ∧
    (∀ n : Int, e.statusCode = some n → n ≠ 0 →
      (Ts.handleError e dev).status = n) ∧
    (statusCodeTruthy e = false → e.code = some "23505" →
      (Ts.handleError e dev).status = 409) ∧
    (statusCodeTruthy e = false → e.code ≠ some "23505" →
      (Ts.handleError e dev).status = 500 ∧
      bodyFieldOf (some (Ts.handleError e dev)) "error" =
        .str "Internal server error") := by
  refine ⟨⟨?_, rfl⟩, ?_, ?_, ?_⟩
  · simp [Dist.handleError, msgHasRequired_of_match e m f hm hf,
          fieldNameOf_of_match e m f hm hf]
  · intro n hn hnz
    have hsc : statusCodeTruthy e = true := by
      simp [statusCodeTruthy, hn, bne_iff_ne, hnz]
    simp [Ts.handleError, Ts.errorParts, hsc, hn]
  · intro hsc hcode
    simp [Ts.handleError, Ts.errorParts, hsc, hcode]
  · intro hsc hc
    have hp : Ts.errorParts e =
        (500, "Internal server error", .undefined) := by
      simp [Ts.errorParts, hsc, hc]
    constructor
    · simp [Ts.handleError, hp]
    · cases hs : dev && stackTruthy e <;>
        simp [Ts.handleError, hp, hs, bodyFieldOf, JsV.getField,
              JsV.lookupField, JsV.truthy]

/-- Witness for C5 (amended) at the spec's example
`new Error('"email" is required!')`: the dist classifier replies 422 with the
missing-field body even when the value also carries a validation list, a
statusCode and the 23505 code, while the ts classifier replies 500 to the
bare pattern error. -/
theorem claim_C5_witness :
    Dist.handleError
      { message := some "\"email\" is required!",
        validation := some [{ instancePath := some "/email" }],
        statusCode := some 400, code := some "23505" } false =
      some ⟨422, some (Dist.errMissingBody "email")⟩ ∧
    (Ts.handleError { message := some "\"email\" is required!" } false).status
      = 500 := by
  constructor
  · exact (claim_C5 _ false "\"email\" is required!" ("email".data) rfl
      (by decide)).1.1
  · exact ((claim_C5 { message := some "\"email\" is required!" } false
      "\"email\" is required!" ("email".data) rfl (by decide)).2.2.2 rfl
      (fun h => Option.noConfusion h)).1

/-- C6 counterexample: the schema declares `body` and the raw body is present
(the number 0, which is not `undefined`), yet `validateRequest` omits the
`body` key, because the code tests JS truthiness of the raw value, not
presence. -/
theorem claim_C6_cex :
    Validator.validateRequest (some { body := .obj [("type", .str "number")] })
      { body := .num 0 } = .obj [] ∧
    (JsV.num 0).isUndefined = false ∧
    (JsV.obj [("type", JsV.str "number")]).truthy = true :=
  ⟨rfl, rfl, rfl⟩

/-- C6 amended: `validateRequest` is a total (never-throwing) projection;
each of the four section keys appears in the output exactly when the declared
schema section is truthy AND the raw value is truthy, and then carries the
raw value unchanged; in every other case (undeclared section, or an absent or
falsy raw value such as 0) the key is omitted. -/
theorem claim_C6 (schema : Option Sections) (req : Sections) :
    (Validator.validateRequest schema req).getField "body" =
      (if (secOf schema Sections.body).truthy && req.body.truthy then req.body
       else .undefined) ∧
    (Validator.validateRequest schema req).getField "params" =
      (if (secOf schema Sections.params).truthy && req.params.truthy then
        req.params else .undefined) ∧
    (Validator.validateRequest schema req).getField "query" =
      (if (secOf schema Sections.query).truthy && req.query.truthy then
        req.query else .undefined) ∧
    (Validator.validateRequest schema req).getField "headers" =
      (if (secOf schema Sections.headers).truthy && req.headers.truthy then
        req.headers else .undefined) := by
  cases h1 : (secOf schema Sections.body).truthy && req.body.truthy <;>
    cases h2 : (secOf schema Sections.params).truthy && req.params.truthy <;>
      cases h3 : (secOf schema Sections.query).truthy && req.query.truthy <;>
        cases h4 : (secOf schema Sections.headers).truthy && req.headers.truthy <;>
          simp [Validator.validateRequest, h1, h2, h3, h4, JsV.getField,
                JsV.lookupField]

/-- C1 counterexample: the third serialization-error shape (here the
uninitialized-validator-compiler error) is replied with status 422 as the
claim says, but its body carries no `details` field at all, so `details.type`
is neither `missing_field` nor `response_validation`. -/
theorem claim_C1_cex :
    statusOf (Dist.handleSerializationError Dist.compilerNotInitError) =
      some 422 ∧
    bodyFieldOf (Dist.handleSerializationError Dist.compilerNotInitError)
      "details" = .undefined ∧
    detailsTypeOf (Dist.handleSerializationError Dist.compilerNotInitError) =
      .undefined ∧
    JsV.undefined ≠ JsV.str "missing_field" ∧
    JsV.undefined ≠ JsV.str "response_validation" := by
  refine ⟨rfl, rfl, rfl, fun h => ?_, fun h => ?_⟩ <;> exact JsV.noConfusion h

/-- C1 amended: every serialization-error reply has status 422 (never the
resolver-computed status, never 500), and its `details.type` is
`missing_field` or `response_validation` whenever the body carries `details`
at all; the catch-all `Serialization Error` shape carries no `details`.
In particular a handler result that fails its declared response schema is
replied 422 with `details.type = response_validation`. -/
theorem claim_C1 :
    (∀ (e : ErrVal) (r : Reply), Dist.handleSerializationError e = some r →
      r.status = 422 ∧
      (detailsTypeOf (some r) = .str "missing_field" ∨
       detailsTypeOf (some r) = .str "response_validation" ∨
       bodyFieldOf (some r) "details" = .undefined)) ∧
    (∀ (method : String) (respSchema : Int → JsV)
       (validate : JsV → JsV → Bool)
       (valErrors : JsV → JsV → List VErrItem) (dev : Bool) (result : JsV)
       (i : VErrItem) (rest : List VErrItem),
      (respSchema (getStatusCode method result)).truthy = true →
      validate (respSchema (getStatusCode method result)) result = false →
      valErrors (respSchema (getStatusCode method result)) result = i :: rest →
      Dist.routeHandler method respSchema true validate valErrors dev
        (.ok result) =
        some [⟨422, some (Dist.serValBody (i :: rest) i)⟩]) := by
  constructor
  · intro e r h
    by_cases hm : msgHasRequired e = true
    · rw [Dist.handleSerializationError, if_pos hm] at h
      injection h with h2
      subst h2
      exact ⟨rfl, Or.inl rfl⟩
    · cases hv : e.validation with
      | none =>
        rw [Dist.handleSerializationError, if_neg hm, hv] at h
        injection h with h2
        subst h2
        exact ⟨rfl, Or.inr (Or.inr rfl)⟩
      | some l =>
        cases l with
        | nil =>
          rw [Dist.handleSerializationError, if_neg hm, hv] at h
          exact absurd h (by simp)
        | cons i rest =>
          rw [Dist.handleSerializationError, if_neg hm, hv] at h
          injection h with h2
          subst h2
          exact ⟨rfl, Or.inr (Or.inl rfl)⟩
  · intro method respSchema validate valErrors dev result i rest ht hval herrs
    have hm0 : msgHasRequired (Dist.responseValidationError (i :: rest)) =
        false := rfl
    have hv0 : (Dist.responseValidationError (i :: rest)).validation =
        some (i :: rest) := rfl
    simp [Dist.routeHandler, ht, hval, herrs, Dist.handleSerializationError,
          hm0, hv0]

/-- Witness for C1 (amended) at a concrete failing response validation. -/
theorem claim_C1_witness :
    Dist.routeHandler "GET" (fun _ => .obj [("type", .str "string")]) true
      (fun _ _ => false) (fun _ _ => [sampleVItem]) false (.ok (.num 5)) =
      some [⟨422, some (Dist.serValBody [sampleVItem] sampleVItem)⟩] :=
  claim_C1.2 "GET" (fun _ => .obj [("type", .str "string")])
    (fun _ _ => false) (fun _ _ => [sampleVItem]) false (.num 5)
    sampleVItem [] rfl rfl rfl

/-- C4 counterexample: on a schema with no declared response shapes, the
normalizer's default 500 shape has `success` and `error` properties but no
`details` property, although the claim says each default shape has the form
`success, error, details`. -/
theorem claim_C4_cex :
    (((normalizeResponseSchemas .undefined).getField "500").getField
      "properties").getField "details" = JsV.undefined ∧
    (((normalizeResponseSchemas .undefined).getField "500").getField
      "properties").getField "error" = .obj [("type", .str "string")] ∧
    (((normalizeResponseSchemas .undefined).getField "500").getField
      "properties").getField "success" = .obj [("type", .str "boolean")] :=
  ⟨rfl, rfl, rfl⟩

/-- C4 amended: the normalizer fills in a default 400 shape
`success/error/details` and a default 500 shape `success/error` (without
`details`) exactly when the caller supplied none, and leaves supplied shapes
unchanged. The hypothesis restricts to real route schemas: a supplied
`response` is a JS object. -/
theorem claim_C4 (response : JsV)
    (hres : response.truthy = true → ∃ fs, response = JsV.obj fs) :
    (((normRespBase response).getField "400").truthy = false →
      (normalizeResponseSchemas response).getField "400" = default400Schema) ∧
    (((normRespBase response).getField "400").truthy = true →
      (normalizeResponseSchemas response).getField "400" =
        (normRespBase response).getField "400") ∧
    (((normRespBase response).getField "500").truthy = false →
      (normalizeResponseSchemas response).getField "500" = default500Schema) ∧
    (((normRespBase response).getField "500").truthy = true →
      (normalizeResponseSchemas response).getField "500" =
        (normRespBase response).getField "500") ∧
    (default400Schema.getField "properties").getField "details" =
      .obj [("type", .str "array"), ("nullable", .bool true)] ∧
    (default500Schema.getField "properties").getField "details" = .undefined := by
  by_cases ht : response.truthy = true
  · obtain ⟨fs, rfl⟩ := hres ht
    have hb : normRespBase (JsV.obj fs) = JsV.obj fs := rfl
    have e54 : JsV.lookupField (JsV.setFieldList fs "400" default400Schema)
        "500" = JsV.lookupField fs "500" :=
      lookup_setFieldList_ne fs "400" default400Schema "500" (by decide)
    have s4 : JsV.lookupField (JsV.setFieldList fs "400" default400Schema)
        "400" = default400Schema :=
      lookup_setFieldList_same fs "400" default400Schema
    have e45 : ∀ w, JsV.lookupField (JsV.setFieldList w "500"
        default500Schema) "400" = JsV.lookupField w "400" := fun w =>
      lookup_setFieldList_ne w "500" default500Schema "400" (by decide)
    have s5 : ∀ w, JsV.lookupField (JsV.setFieldList w "500"
        default500Schema) "500" = default500Schema := fun w =>
      lookup_setFieldList_same w "500" default500Schema
    by_cases h4 : (JsV.lookupField fs "400").truthy = true <;>
      by_cases h5 : (JsV.lookupField fs "500").truthy = true
    · have hout : normalizeResponseSchemas (JsV.obj fs) = JsV.obj fs := by
        simp [normalizeResponseSchemas, hb, JsV.getField, h4, h5]
      refine ⟨?_, ?_, ?_, ?_, rfl, rfl⟩ <;> intro hx <;>
        simp only [hb, JsV.getField] at hx ⊢ <;>
        simp_all [JsV.getField, s4, e54, e45, s5]
    · have hout : normalizeResponseSchemas (JsV.obj fs) =
          JsV.obj (JsV.setFieldList fs "500" default500Schema) := by
        simp [normalizeResponseSchemas, hb, JsV.getField, h4, h5,
              JsV.setField]
      refine ⟨?_, ?_, ?_, ?_, rfl, rfl⟩ <;> intro hx <;>
        simp only [hb, JsV.getField] at hx ⊢ <;>
        simp_all [JsV.getField, s4, e54, e45, s5]
    · have hout : normalizeResponseSchemas (JsV.obj fs) =
          JsV.obj (JsV.setFieldList fs "400" default400Schema) := by
        simp [normalizeResponseSchemas, hb, JsV.getField, h4,
              JsV.setField, e54, h5]
      refine ⟨?_, ?_, ?_, ?_, rfl, rfl⟩ <;> intro hx <;>
        simp only [hb, JsV.getField] at hx ⊢ <;>
        simp_all [JsV.getField, s4, e54, e45, s5]
    · have hout : normalizeResponseSchemas (JsV.obj fs) =
          JsV.obj (JsV.setFieldList (JsV.setFieldList fs "400"
            default400Schema) "500" default500Schema) := by
        simp [normalizeResponseSchemas, hb, JsV.getField, h4,
              JsV.setField, e54, h5]
      refine ⟨?_, ?_, ?_, ?_, rfl, rfl⟩ <;> intro hx <;>
        simp only [hb, JsV.getField] at hx ⊢ <;>
        simp_all [JsV.getField, s4, e54, e45, s5]
  · have ht2 : response.truthy = false := by
      cases hq : response.truthy
      · rfl
      · exact absurd hq ht
    have hb : normRespBase response = JsV.obj [] := by
      rw [normRespBase, ht2]
      simp
    have hout : normalizeResponseSchemas response =
        JsV.obj [("400", default400Schema), ("500", default500Schema)] := by
      simp [normalizeResponseSchemas, hb, JsV.getField, JsV.lookupField,
            JsV.truthy, JsV.setField, JsV.setFieldList]
    refine ⟨?_, ?_, ?_, ?_, rfl, rfl⟩ <;> intro hx <;>
      simp only [hb, JsV.getField, JsV.lookupField, JsV.truthy] at hx ⊢ <;>
      simp_all [JsV.getField, JsV.lookupField]

/-- Witness for C4 (amended) at an absent response schema. -/
theorem claim_C4_witness :
    (normalizeResponseSchemas JsV.undefined).getField "400" = default400Schema ∧
    (normalizeResponseSchemas JsV.undefined).getField "500" = default500Schema := by
  have h := claim_C4 JsV.undefined (fun hh => absurd hh (by decide))
  exact ⟨h.1 rfl, h.2.2.1 rfl⟩

/-- C7: for every outcome of the handler (return or throw), the registered
route handler produces exactly one reply, under the collaborator contracts
that ajv reports a failed validation with a nonempty error list and that a
thrown value does not carry a truthy empty validation array (on which the
classifier itself would throw). -/
theorem claim_C7 (method : String) (respSchema : Int → JsV)
    (validatorInit : Bool) (validate : JsV → JsV → Bool)
    (valErrors : JsV → JsV → List VErrItem) (dev : Bool)
    (outcome : Dist.Outcome)
    (hval : ∀ s r9, validate s r9 = false → valErrors s r9 ≠ [])
    (herr : ∀ e9, outcome = .err e9 → e9.validation ≠ some []) :
    ∃ rep, Dist.routeHandler method respSchema validatorInit validate
      valErrors dev outcome = some [rep] := by
  cases outcome with
  | err e =>
    obtain ⟨r, hr⟩ :=
      Option.ne_none_iff_exists'.mp (handleError_ne_none e dev (herr e rfl))
    exact ⟨r, by simp [Dist.routeHandler, hr]⟩
  | ok result =>
    by_cases hts : (respSchema (getStatusCode method result)).truthy = true
    · cases validatorInit with
      | false =>
        obtain ⟨r, hr⟩ := Option.ne_none_iff_exists'.mp
          (handleSerialization_ne_none Dist.compilerNotInitError (by
            simp [Dist.compilerNotInitError]))
        exact ⟨r, by simp [Dist.routeHandler, hts, hr]⟩
      | true =>
        by_cases hv : validate (respSchema (getStatusCode method result))
            result = true
        · exact ⟨⟨getStatusCode method result, some result⟩, by
            simp [Dist.routeHandler, hts, hv]⟩
        · have hv' : validate (respSchema (getStatusCode method result))
              result = false := by
            cases hq : validate (respSchema (getStatusCode method result))
                result
            · rfl
            · exact absurd hq hv
          cases hE : valErrors (respSchema (getStatusCode method result))
              result with
          | nil => exact absurd hE (hval _ _ hv')
          | cons i rest =>
            obtain ⟨r, hr⟩ := Option.ne_none_iff_exists'.mp
              (handleSerialization_ne_none
                (Dist.responseValidationError (i :: rest)) (by
                  simp [Dist.responseValidationError]))
            exact ⟨r, by simp [Dist.routeHandler, hts, hv', hE, hr]⟩
    · exact ⟨⟨getStatusCode method result, some result⟩, by
        simp [Dist.routeHandler, hts]⟩

/-- Witness for C7 at a schemaless GET route whose handler returns 1. -/
theorem claim_C7_witness :
    ∃ rep, Dist.routeHandler "GET" (fun _ => .undefined) true (fun _ _ => true)
      (fun _ _ => []) false (.ok (.num 1)) = some [rep] :=
  claim_C7 "GET" (fun _ => .undefined) true (fun _ _ => true) (fun _ _ => [])
    false (.ok (.num 1)) (fun _ _ h => nomatch h) (fun _ h => nomatch h)

/-- C8 counterexample: for the same upstream validation error, the global
error handler tags the body `details.type = request_validation` while
classifier case 2 tags it `validation`; the two bodies are not identical, so
they do not carry the same type tag. -/
theorem claim_C8_cex :
    detailsTypeOf (Dist.globalErrorHandler sampleValErr false) =
      .str "request_validation" ∧
    detailsTypeOf (Dist.handleError sampleValErr false) = .str "validation" ∧
    JsV.str "request_validation" ≠ JsV.str "validation" := by
  refine ⟨rfl, rfl, fun h => ?_⟩
  injection h with h2
  exact absurd h2 (by decide)

/-- C8 amended: for every error carrying a nonempty validation list, the
global handler and classifier case 2 both reply 400 with the same `error`,
the same first-failure `reason` and the same full `errors` list — the bodies
differ only in the `details.type` tag (`request_validation` versus
`validation`) and in that only the classifier attaches a stack in
development mode. -/
theorem claim_C8 (e : ErrVal) (dev : Bool) (i : VErrItem)
    (rest : List VErrItem) (hv : e.validation = some (i :: rest)) :
    Dist.globalErrorHandler e dev =
      some ⟨400, some (Dist.valBody "request_validation" (i :: rest) i)⟩ ∧
    (msgHasRequired e = false →
      Dist.handleError e dev =
        some ⟨400, some (Dist.withStack dev e
          (Dist.valBody "validation" (i :: rest) i))⟩) := by
  constructor
  · simp [Dist.globalErrorHandler, hv]
  · intro hm
    simp [Dist.handleError, hm, hv]

/-- Witness for C8 (amended) at a concrete one-item validation error. -/
theorem claim_C8_witness :
    Dist.globalErrorHandler sampleValErr false =
      some ⟨400, some (Dist.valBody "request_validation" [sampleVItem]
        sampleVItem)⟩ ∧
    Dist.handleError sampleValErr false =
      some ⟨400, some (Dist.valBody "validation" [sampleVItem] sampleVItem)⟩ := by
  have h := claim_C8 sampleValErr false sampleVItem [] rfl
  exact ⟨h.1, h.2 rfl⟩

/-- C9 counterexample: the serialization-error path never attaches a stack —
here an error that carries a stack trace is formatted with no `stack` field
(`handleSerializationError` does not even consult the development flag),
while the same development mode attaches the stack on the handler-throw
path. -/
theorem claim_C9_cex :
    bodyFieldOf (Dist.handleSerializationError
      { message := some "Response validation failed",
        validation := some [sampleVItem],
        stack := some "trace at line 1" }) "stack" = .undefined ∧
    bodyFieldOf (Dist.handleError sampleStackErr true) "stack" =
      .str "trace at line 1" :=
  ⟨rfl, rfl⟩

/-- C9 amended: no error reply ever carries a stack outside development
mode; in development mode the classifier (`handleError`, on every branch)
attaches the stack exactly when the error has a truthy one, and so does the
`src/src/service.ts` classifier — but the serialization-error path and the
global handler's request-validation branch never attach a stack in any
mode. -/
theorem claim_C9 :
    (∀ (e : ErrVal) (dev : Bool) (r : Reply),
      Dist.handleError e dev = some r →
      (bodyFieldOf (some r) "stack" ≠ .undefined ↔ (dev && stackTruthy e) = true)) ∧
    (∀ (e : ErrVal) (r : Reply), Dist.handleSerializationError e = some r →
      bodyFieldOf (some r) "stack" = .undefined) ∧
    (∀ (e : ErrVal) (dev : Bool) (i : VErrItem) (rest : List VErrItem),
      e.validation = some (i :: rest) →
      bodyFieldOf (Dist.globalErrorHandler e dev) "stack" = .undefined) ∧
    (∀ (e : ErrVal) (dev : Bool),
      (bodyFieldOf (some (Ts.handleError e dev)) "stack" ≠ .undefined ↔
        (dev && stackTruthy e) = true)) := by
  refine ⟨?_, ?_, ?_, ?_⟩
  · intro e dev r h
    by_cases hm : msgHasRequired e = true
    · rw [Dist.handleError, if_pos hm] at h
      injection h with h2
      subst h2
      exact stack_withStack_iff' dev e _ ⟨_, rfl⟩ rfl
    · cases hv : e.validation with
      | some l =>
        cases l with
        | nil =>
          rw [Dist.handleError, if_neg hm, hv] at h
          exact absurd h (by simp)
        | cons i rest =>
          rw [Dist.handleError, if_neg hm, hv] at h
          injection h with h2
          subst h2
          exact stack_withStack_iff' dev e _ ⟨_, rfl⟩ rfl
      | none =>
        by_cases hsc : statusCodeTruthy e = true
        · rw [Dist.handleError, if_neg hm, hv, if_pos hsc] at h
          injection h with h2
          subst h2
          have hb : (Dist.statusBody e).getField "stack" = .undefined := by
            cases hd : e.details.truthy <;>
              simp [Dist.statusBody, hd, JsV.getField, JsV.lookupField]
          exact stack_withStack_iff' dev e _ ⟨_, rfl⟩ hb
        · rw [Dist.handleError, if_neg hm, hv, if_neg hsc] at h
          injection h with h2
          subst h2
          exact stack_withStack_iff' dev e _ ⟨_, rfl⟩ rfl
  · intro e r h
    by_cases hm : msgHasRequired e = true
    · rw [Dist.handleSerializationError, if_pos hm] at h
      injection h with h2
      subst h2
      rfl
    · cases hv : e.validation with
      | some l =>
        cases l with
        | nil =>
          rw [Dist.handleSerializationError, if_neg hm, hv] at h
          exact absurd h (by simp)
        | cons i rest =>
          rw [Dist.handleSerializationError, if_neg hm, hv] at h
          injection h with h2
          subst h2
          rfl
      | none =>
        rw [Dist.handleSerializationError, if_neg hm, hv] at h
        injection h with h2
        subst h2
        rfl
  · intro e dev i rest hv
    simp [Dist.globalErrorHandler, hv, bodyFieldOf, Dist.valBody,
          JsV.getField, JsV.lookupField]
  · intro e dev
    cases hd : (Ts.errorParts e).2.2.truthy <;>
      cases hs : dev && stackTruthy e <;>
        simp [Ts.handleError, hd, hs, bodyFieldOf, JsV.getField,
              JsV.lookupField]

/-- Witness for C9 (amended): in development mode a thrown error's stack is
attached on the classifier path; outside development mode and on the
serialization path it is not. -/
theorem claim_C9_witness :
    (bodyFieldOf (some ⟨500, some (Dist.withStack true sampleStackErr
        (Dist.fallbackBody sampleStackErr))⟩) "stack" ≠ .undefined) ∧
    bodyFieldOf (Dist.handleSerializationError { message := some "oops" })
      "stack" = .undefined := by
  constructor
  · exact (claim_C9.1 sampleStackErr true
      ⟨500, some (Dist.withStack true sampleStackErr
        (Dist.fallbackBody sampleStackErr))⟩ rfl).mpr rfl
  · exact claim_C9.2.1 { message := some "oops" }
      ⟨422, some (Dist.serFallbackBody { message := some "oops" })⟩ rfl

/-- C10: outside the missing-field and validation cases, any truthy (nonzero)
statusCode is echoed verbatim with no range check by both classifier
revisions, with the body's `details` present exactly when the error's
`details` is truthy; a falsy statusCode (0 or absent) instead falls through
to the remaining cases — 409 for the unique-violation code in the
`src/src/service.ts` classifier, otherwise the 500 fallback — whose bodies
carry no `details`. -/
theorem claim_C10 (e : ErrVal) (dev : Bool)
    (hm : msgHasRequired e = false) (hv : e.validation = none) :
    (∀ n : Int, e.statusCode = some n → n ≠ 0 →
      statusOf (Dist.handleError e dev) = some n ∧
      (Ts.handleError e dev).status = n ∧
      bodyFieldOf (Dist.handleError e dev) "details" =
        (if e.details.truthy then e.details else .undefined) ∧
      bodyFieldOf (some (Ts.handleError e dev)) "details" =
        (if e.details.truthy then e.details else .undefined)) ∧
    (statusCodeTruthy e = false →
      statusOf (Dist.handleError e dev) = some 500 ∧
      bodyFieldOf (Dist.handleError e dev) "details" = .undefined ∧
      (Ts.handleError e dev).status =
        (if e.code = some "23505" then 409 else 500) ∧
      bodyFieldOf (some (Ts.handleError e dev)) "details" = .undefined) := by
  constructor
  · intro n hn hnz
    have hsc : statusCodeTruthy e = true := by
      simp [statusCodeTruthy, hn, bne_iff_ne, hnz]
    have hgd : e.statusCode.getD 0 = n := by simp [hn]
    have hp : Ts.errorParts e =
        (e.statusCode.getD 0, jsOrStr e.message "Internal server error",
          e.details) := by
      simp [Ts.errorParts, hsc]
    refine ⟨?_, ?_, ?_, ?_⟩
    · simp [Dist.handleError, hm, hv, hsc, statusOf, hgd]
    · simp [Ts.handleError, hp, hgd]
    · have hds : ∀ b : JsV,
          (Dist.withStack dev e (Dist.statusBody e)).getField "details" =
            (Dist.statusBody e).getField "details" := fun _ => by
        rw [Dist.statusBody, getField_withStack_ne dev e _ "details"
          (by decide)]
      have hsb : (Dist.statusBody e).getField "details" =
          (if e.details.truthy then e.details else .undefined) := by
        cases hd : e.details.truthy <;>
          simp [Dist.statusBody, hd, JsV.getField, JsV.lookupField]
      simp [Dist.handleError, hm, hv, hsc, bodyFieldOf, hds .undefined, hsb]
    · cases hd : e.details.truthy <;>
        cases hs : dev && stackTruthy e <;>
          simp [Ts.handleError, hp, hd, hs, bodyFieldOf, JsV.getField,
                JsV.lookupField]
  · intro hsc
    refine ⟨?_, ?_, ?_, ?_⟩
    · simp [Dist.handleError, hm, hv, hsc, statusOf]
    · have hfb : (Dist.withStack dev e (Dist.fallbackBody e)).getField
          "details" = .undefined := by
        rw [Dist.fallbackBody, getField_withStack_ne dev e _ "details"
          (by decide)]
        rfl
      simp [Dist.handleError, hm, hv, hsc, bodyFieldOf, hfb]
    · by_cases hc : e.code = some "23505" <;>
        simp [Ts.handleError, Ts.errorParts, hsc, hc]
    · by_cases hc : e.code = some "23505" <;>
        cases hs : dev && stackTruthy e <;>
          simp [Ts.handleError, Ts.errorParts, hsc, hc, hs, bodyFieldOf,
                JsV.getField, JsV.lookupField, JsV.truthy]

/-- Witness for C10 at statusCode 999 (out of HTTP range, echoed verbatim
with truthy details attached) and at statusCode 0 with the unique-violation
code (falls through: 409 in the ts classifier, 500 in the dist one). -/
theorem claim_C10_witness :
    statusOf (Dist.handleError
      { statusCode := some 999, details := .obj [("a", .num 1)] } false) =
      some 999 ∧
    (Ts.handleError
      { statusCode := some 999, details := .obj [("a", .num 1)] } false).status
      = 999 ∧
    bodyFieldOf (Dist.handleError
      { statusCode := some 999, details := .obj [("a", .num 1)] } false)
      "details" = .obj [("a", .num 1)] ∧
    (Ts.handleError { statusCode := some 0, code := some "23505" }
      false).status = 409 ∧
    statusOf (Dist.handleError { statusCode := some 0, code := some "23505" }
      false) = some 500 := by
  have h1 := claim_C10
    { statusCode := some 999, details := .obj [("a", .num 1)] } false rfl rfl
  have h2 := claim_C10 { statusCode := some 0, code := some "23505" } false
    rfl rfl
  obtain ⟨ha, hb, hc, -⟩ := h1.1 999 rfl (by decide)
  refine ⟨ha, hb, ?_, ?_, (h2.2 rfl).1⟩
  · exact hc
  · exact (h2.2 rfl).2.2.1
